import Mathlib

/-!
Formal model of the MCASS snow-situation dashboard (hydrosolutions/MCASS).

The development shallowly embeds the parts of `src/mcass-dashboard.py`,
`src/dashboard.py` and `src/tools/aggregate_latest_data_files.py` that the
verified properties are about:

* the geometry store (`read_basin_geometry`, the `selected` flag and labels),
* the spatial locator (`get_subbasin_code_from_tap`, `get_region_from_tap`
  from `mcass-dashboard.py`, and `get_subbasin_code` from `dashboard.py`),
* the selection update (`update_gdf_with_selected_basin`) and the reactive
  effect of the variable toggle,
* the time-series loader (`read_previous_year_data_for_basin`, the forecast
  split in `plot_subbasin_data`),
* the aggregation batch job (`aggregate_subbasins_data` and its helpers).

Numbers that the Python code treats as floats are modelled as exact
rationals; pandas dataframes are modelled as lists of rows; a raised Python
exception is modelled as `Except.error`.
-/

/-- A planar point (model of a shapely `Point`); coordinates are modelled as
exact rationals. -/
structure Pt where
  x : ℚ
  y : ℚ

/-- One row of the basin GeoDataFrame `gdf`.  The polygon geometry itself is
modelled extensionally by `containsPt`, the containment test of the row's
(projected, simplified) polygon: `containsPt p = true` iff the polygon
contains the point `p` expressed in the metric CRS EPSG:32642. -/
structure GeoRow where
  region : String
  basin : String
  code : String
  gauges_RIVER : String
  area_km2 : ℚ
  label : String
  selected : Bool
  containsPt : Pt → Bool

/-- Model of `np.argwhere(contains.values).flatten()`: the indices of the
`true` entries of a boolean vector, in ascending order. -/
def trueIndices (bs : List Bool) : List Nat :=
  (List.range bs.length).filter (fun i => bs.getD i false)

/-- Model of `get_subbasin_code_from_tap` (src/mcass-dashboard.py, lines
196-223).  `reproject` is the fixed EPSG:3857 → EPSG:32642 coordinate
transformation applied to the clicked point; each row's `containsPt` is the
containment test of its EPSG:32642-projected polygon.  The function has no
`try`/`except`: a raised exception is returned as `Except.error`.  When no
polygon contains the point, `true_indices[-1] if len(true_indices) > 0 else
None` yields `None` and `gdf_projected.iloc[None]` raises a `TypeError`.
When both tap coordinates are `None` (no click yet) the guard
`if x is not None or y is not None` is skipped and the function returns
`None`; a half-missing coordinate makes `Point(x, y)` raise. -/
def get_subbasin_code_from_tap (reproject : Pt → Pt) (gdf : List GeoRow)
    (x y : Option ℚ) : Except String (Option String) :=
  match x, y with
  | none, none => Except.ok none
  | some px, some py =>
    let p := reproject ⟨px, py⟩
    let contains := gdf.map (fun r => r.containsPt p)
    match (trueIndices contains).getLast? with
    | none => Except.error "TypeError: cannot index by location index with a non-integer key"
    | some i =>
      match gdf[i]? with
      | some clicked => Except.ok (some clicked.label)
      | none => Except.error "IndexError: single positional indexer is out-of-bounds"
  | _, _ => Except.error "TypeError: cannot create a Point from a missing coordinate"

/-- Model of `get_region_from_tap` (src/mcass-dashboard.py, lines 225-252).
Identical to `get_subbasin_code_from_tap` except that it returns the
`REGION` attribute of the clicked polygon instead of its `label`. -/
def get_region_from_tap (reproject : Pt → Pt) (gdf : List GeoRow)
    (x y : Option ℚ) : Except String (Option String) :=
  match x, y with
  | none, none => Except.ok none
  | some px, some py =>
    let p := reproject ⟨px, py⟩
    let contains := gdf.map (fun r => r.containsPt p)
    match (trueIndices contains).getLast? with
    | none => Except.error "TypeError: cannot index by location index with a non-integer key"
    | some i =>
      match gdf[i]? with
      | some clicked => Except.ok (some clicked.region)
      | none => Except.error "IndexError: single positional indexer is out-of-bounds"
  | _, _ => Except.error "TypeError: cannot create a Point from a missing coordinate"

/-- Body of the `try:` block of `get_subbasin_code` (src/dashboard.py, lines
116-145).  There is no `if x is not None` guard in this variant: with the
initial `None` tap coordinates `Point(x, y)` itself raises.  On success it
returns the `CODE` attribute of the clicked polygon. -/
def get_subbasin_code_try (reproject : Pt → Pt) (gdf : List GeoRow)
    (x y : Option ℚ) : Except String String :=
  match x, y with
  | some px, some py =>
    let p := reproject ⟨px, py⟩
    let contains := gdf.map (fun r => r.containsPt p)
    match (trueIndices contains).getLast? with
    | none => Except.error "TypeError: cannot index by location index with a non-integer key"
    | some i =>
      match gdf[i]? with
      | some clicked => Except.ok clicked.code
      | none => Except.error "IndexError: single positional indexer is out-of-bounds"
  | _, _ => Except.error "TypeError: cannot create a Point from a missing coordinate"

/-- Model of `get_subbasin_code` (src/dashboard.py, lines 116-145): the whole
body runs inside `try`/`except`; the `except` branch writes a diagnostic to
the `output` pane and falls off the end of the function, returning `None`. -/
def get_subbasin_code (reproject : Pt → Pt) (gdf : List GeoRow)
    (x y : Option ℚ) : Option String :=
  match get_subbasin_code_try reproject gdf x y with
  | Except.ok basin_code => some basin_code
  | Except.error _ => none

/-- Lines 75-79 of src/mcass-dashboard.py: `gdf['selected'] = False` followed
by `gdf.loc[0, 'selected'] = True` — every row's `selected` flag is cleared
and the first row's flag is set. -/
def init_selected : List GeoRow → List GeoRow
  | [] => []
  | r :: rs => { r with selected := true } :: rs.map (fun s => { s with selected := false })

/-- Model of `read_basin_geometry` (src/mcass-dashboard.py, lines 49-116),
restricted to the geometry normalization of lines 60-88.  Reading the file,
exploding multipolygons and simplifying the outlines only produce the
per-row containment tests already carried by `containsPt`, and
`astype(str)` is the identity on the modelled string fields.  The two
trailing left-merges (lines 93-112) only append threshold columns and are
out of scope of the verified properties.  Modelled steps, in source order:
initialize the `selected` flags (lines 75-79), replace a `gauges_RIVER`
value equal to the string `'None'` by `'<river name unknown>'` (line 82),
derive `label = CODE + ' - ' + gauges_RIVER` (line 85), and sort by
`area_km2` in descending order (line 88). -/
def read_basin_geometry (raws : List GeoRow) : List GeoRow :=
  let g1 := init_selected raws
  let g2 := g1.map (fun r =>
    let riv := if r.gauges_RIVER = "None" then "<river name unknown>" else r.gauges_RIVER
    { r with gauges_RIVER := riv, label := r.code ++ " - " ++ riv })
  List.insertionSort (fun a b => b.area_km2 ≤ a.area_km2) g2

/-- Model of `update_gdf_with_selected_basin` (src/mcass-dashboard.py, lines
149-179).  With a non-empty selection it first sets every row's `selected`
flag to `False` and then sets it to `True` on every row whose `REGION`
(Regional view) or `label` (Sub-basin view) equals the selected value; with
an empty selection it returns `gdf` unchanged.  The `try`/`except` wrapper
is not modelled: no step of the body can raise. -/
def update_gdf_with_selected_basin (gdf : List GeoRow) (selected_basin : List String)
    (view_option : String) : List GeoRow :=
  match selected_basin with
  | [] => gdf
  | s0 :: _ =>
    if view_option = "Regional" then
      (gdf.map (fun r => { r with selected := false })).map
        (fun r => if r.region = s0 then { r with selected := true } else r)
    else
      (gdf.map (fun r => { r with selected := false })).map
        (fun r => if r.label = s0 then { r with selected := true } else r)

/-- The reactive widget state of src/mcass-dashboard.py: the values of the
`view_options` and `variable_options` RadioButtonGroups, the value and
option list of the `basin_selection` MultiChoice widget, and the shared
GeoDataFrame `gdf` (whose `selected` flags are mutated in place by the map
renderer). -/
structure AppState where
  view_option : String
  variable_option : String
  basin_selection_value : List String
  basin_selection_options : List String
  gdf : List GeoRow

/-- The effect of the user toggling `variable_options` to `v` in
src/mcass-dashboard.py.  Setting the widget value triggers no watcher that
touches `basin_selection` (`update_basin_selection_widget_with_region_selection`
at line 456 watches `view_options` only), so the selection value and option
list are untouched; the dependent map re-render (`plot_regional_map`, line
353) recomputes the `selected` flags from the unchanged selection via
`update_gdf_with_selected_basin`. -/
def set_variable (s : AppState) (v : String) : AppState :=
  { s with
    variable_option := v,
    gdf := update_gdf_with_selected_basin s.gdf s.basin_selection_value s.view_option }

/-- The chart produced by `plot_subbasin_data`, reduced to the fields the
verified properties mention: the title, the y-axis label, the `Q50` column
family rendered, and the basin code the data was loaded for. -/
structure ChartSpec where
  title : String
  ylabel : String
  y_column : String
  basin_code : String
deriving DecidableEq

/-- Model of `plot_subbasin_data` (src/mcass-dashboard.py, lines 470-575),
reduced to the chart metadata: `basin_code = basin[0].split(' - ')[0]`
(line 476) and the variable-dependent title / y-axis label / rendered `Q50`
column (lines 492-565).  With an empty `basin` list, `basin[0]` raises an
`IndexError` which the surrounding `try`/`except` converts to an error
string instead of a chart; this is modelled as `none`.  `river_name` is the
result of the `get_river_name_for_basin` lookup. -/
def plot_subbasin_data (variable_sel : String) (basin : List String)
    (river_name : String) : Option ChartSpec :=
  match basin with
  | [] => none
  | b :: _ =>
    let basin_code := ((b.splitOn " - ").headD "")
    if variable_sel = "SWE" then
      some { title := "SWE situation for basin of river " ++ river_name ++ " (gauge " ++ basin_code ++ ")",
             ylabel := "SWE (mm)", y_column := "Q50_SWE", basin_code := basin_code }
    else if variable_sel = "HS" then
      some { title := "HS situation for basin of river " ++ river_name ++ " (gauge " ++ basin_code ++ ")",
             ylabel := "HS (m)", y_column := "Q50_HS", basin_code := basin_code }
    else
      some { title := "ROF situation for basin of river " ++ river_name ++ " (gauge " ++ basin_code ++ ")",
             ylabel := "ROF (mm)", y_column := "Q50_ROF", basin_code := basin_code }

/-- A calendar date, as carried by the parsed `date` column of the per-basin
time-series files. -/
structure Date where
  year : Int
  month : Nat
  day : Nat
deriving DecidableEq

/-- Gregorian leap-year test. -/
def isLeapYear (y : Int) : Bool :=
  (y % 4 == 0 && y % 100 != 0) || y % 400 == 0

/-- Number of days of month `m` of year `y`. -/
def daysInMonth (y : Int) (m : Nat) : Nat :=
  if m = 2 then (if isLeapYear y then 29 else 28)
  else if m = 4 ∨ m = 6 ∨ m = 9 ∨ m = 11 then 30
  else 31

/-- Model of `+ pd.DateOffset(years=1)`: increment the year, clamping the
day to the length of the target month (this affects only Feb 29, which maps
to Feb 28 of the following, non-leap year). -/
def addOneYear (d : Date) : Date :=
  { d with year := d.year + 1, day := min d.day (daysInMonth (d.year + 1) d.month) }

/-- Model of `read_previous_year_data_for_basin` (src/mcass-dashboard.py,
lines 276-288) after the file for the requested basin has been read and its
`date` column parsed: line 285 adds `pd.DateOffset(years=1)` to the `date`
column and leaves every other column untouched.  A row is a parsed date
paired with the row's remaining columns of type `α`. -/
def read_previous_year_data_for_basin {α : Type} (dfprevious : List (Date × α)) :
    List (Date × α) :=
  dfprevious.map (fun r => (addOneYear r.1, r.2))

/-- One row of a per-basin `{id}_current.txt` file as used by
`plot_subbasin_data` / `plot_region_data`: the parsed date, the forecast
flag `FC`, and the `Q50` value columns. -/
structure CurrentRow where
  date : Date
  fc : Bool
  q50_swe : ℚ
  q50_hs : ℚ
  q50_rof : ℚ
deriving DecidableEq

/-- Lines 479-481 of src/mcass-dashboard.py (and identically lines 586-588):
`dfforecast = dfcurrent[dfcurrent['FC'] == True]` and
`dfcurrent = dfcurrent[dfcurrent['FC'] == False]`.  Returns the pair
(forecast sub-series, observed sub-series). -/
def split_current_by_forecast_flag (dfcurrent : List CurrentRow) :
    List CurrentRow × List CurrentRow :=
  (dfcurrent.filter (fun r => r.fc == true), dfcurrent.filter (fun r => r.fc == false))

/-- Model of Python's `str.split(sep)` for a single-character separator,
over strings modelled as character lists: every occurrence of `sep` splits,
adjacent separators produce empty fields, and the result is never empty
(`''.split(sep) == ['']`). -/
def pySplit (sep : Char) : List Char → List (List Char)
  | [] => [[]]
  | c :: cs =>
    let r := pySplit sep cs
    if c = sep then [] :: r
    else (c :: r.headD []) :: r.tail

/-- Model of `get_basin_id_from_file_path` (src/tools/
aggregate_latest_data_files.py, lines 16-18):
`file_path.split('/')[-1].split('_')[0]`. -/
def get_basin_id_from_file_path (file_path : List Char) : List Char :=
  (pySplit '_' ((pySplit '/' file_path).getLastD [])).headD []

/-- One data line of a per-basin `*current*.txt` / `*climate*.txt` file,
restricted to the columns the aggregation job selects.  The `date` column
is kept as the raw string read from the file: the aggregation job never
parses it and compares dates as strings. -/
structure RawRow where
  date : String
  q5_swe : ℚ
  q5_hs : ℚ
  q50_swe : ℚ
  q50_hs : ℚ
  q95_swe : ℚ
  q95_hs : ℚ
deriving DecidableEq

/-- An input file of the aggregation job: its path and its parsed data
rows, in file order. -/
structure DataFile where
  path : List Char
  rows : List RawRow
deriving DecidableEq

/-- A row of the `current_data` frame built by
`read_last_data_from_file_to_dataframe`: columns `date`, `Q50_SWE`,
`Q50_HS` plus the derived `basin_id` (the `rename` in the aggregation
functions turns `q50_swe`/`q50_hs` into `current_swe`/`current_hs`). -/
structure CurrentEntry where
  basin_id : List Char
  date : String
  q50_swe : ℚ
  q50_hs : ℚ
deriving DecidableEq

/-- A row of the `climate_data` frame built by
`read_data_for_date_from_file_to_dataframe`: columns `date`, `Q5_*`,
`Q50_*`, `Q95_*` plus the derived `basin_id` (the `rename` turns
`q50_swe`/`q50_hs` into `climate_swe`/`climate_hs`). -/
structure ClimateEntry where
  basin_id : List Char
  date : String
  q5_swe : ℚ
  q5_hs : ℚ
  q50_swe : ℚ
  q50_hs : ℚ
  q95_swe : ℚ
  q95_hs : ℚ
deriving DecidableEq

/-- Model of `read_last_data_from_file_to_dataframe` (lines 20-30): select
columns `date`, `Q50_SWE`, `Q50_HS`, attach `basin_id`, keep only the last
row (`tail(1)` of an empty frame is empty). -/
def read_last_data_from_file_to_dataframe (f : DataFile) : List CurrentEntry :=
  match f.rows.getLast? with
  | none => []
  | some r => [{ basin_id := get_basin_id_from_file_path f.path, date := r.date,
                 q50_swe := r.q50_swe, q50_hs := r.q50_hs }]

/-- Model of `read_data_for_date_from_file_to_dataframe` (lines 32-41):
select the quantile columns, attach `basin_id`, keep the rows whose `date`
equals the requested date. -/
def read_data_for_date_from_file_to_dataframe (f : DataFile) (date : String) :
    List ClimateEntry :=
  (f.rows.filter (fun r => r.date == date)).map
    (fun r => { basin_id := get_basin_id_from_file_path f.path, date := r.date,
                q5_swe := r.q5_swe, q5_hs := r.q5_hs,
                q50_swe := r.q50_swe, q50_hs := r.q50_hs,
                q95_swe := r.q95_swe, q95_hs := r.q95_hs })

/-- Model of `get_last_lines_from_subbasin_files_into_dataframe` (lines
43-45): `pd.concat` of the one-row last-line frames of all matched files.
The `glob` file selection is modelled by the input list of files. -/
def get_last_lines_from_subbasin_files_into_dataframe (files : List DataFile) :
    List CurrentEntry :=
  files.flatMap read_last_data_from_file_to_dataframe

/-- Model of `get_lines_for_date_from_subbasin_files_into_dataframe` (lines
47-49). -/
def get_lines_for_date_from_subbasin_files_into_dataframe (files : List DataFile)
    (date : String) : List ClimateEntry :=
  files.flatMap (fun f => read_data_for_date_from_file_to_dataframe f date)

/-- A row of the merged, classified output frame of the aggregation job. -/
structure MergedRow where
  basin_id : List Char
  date : String
  current_swe : ℚ
  current_hs : ℚ
  q5_swe : ℚ
  q5_hs : ℚ
  climate_swe : ℚ
  climate_hs : ℚ
  q95_swe : ℚ
  q95_hs : ℚ
  swe_threshold : String
  hs_threshold : String
deriving DecidableEq

/-- Lines 73-82 of src/tools/aggregate_latest_data_files.py applied to one
row: initialize the threshold to `'normal'`, overwrite it with `'high'`
where the current value exceeds `Q95`, then overwrite it with `'low'` where
the current value is below `Q5` (the `'low'` assignment runs last). -/
def classify_threshold (current q5 q95 : ℚ) : String :=
  let t0 := "normal"
  let t1 := if current > q95 then "high" else t0
  if current < q5 then "low" else t1

/-- Line 71: `pd.merge(current_data, climate_data, on=['basin_id', 'date'])`
(inner join), followed by the per-row threshold classification of lines
73-82. -/
def merge_current_climate (current_data : List CurrentEntry)
    (climate_data : List ClimateEntry) : List MergedRow :=
  current_data.flatMap (fun c =>
    (climate_data.filter (fun k => k.basin_id == c.basin_id && k.date == c.date)).map
      (fun k => { basin_id := c.basin_id, date := c.date,
                  current_swe := c.q50_swe, current_hs := c.q50_hs,
                  q5_swe := k.q5_swe, q5_hs := k.q5_hs,
                  climate_swe := k.q50_swe, climate_hs := k.q50_hs,
                  q95_swe := k.q95_swe, q95_hs := k.q95_hs,
                  swe_threshold := classify_threshold c.q50_swe k.q5_swe k.q95_swe,
                  hs_threshold := classify_threshold c.q50_hs k.q5_hs k.q95_hs }))

/-- Model of `aggregate_subbasins_data` (lines 59-84), up to the final
`to_csv`: build the last-line frame of the current files, take the date of
its first row (`current_data['date'].iloc[0]` raises an `IndexError` when
there is no row, modelled as `none`), collect the climate rows for that one
date, merge on `basin_id` and `date`, and classify the thresholds.
`aggregate_region_data` (lines 86-111) is literally identical except for
the glob pattern, which is modelled by the input file lists. -/
def aggregate_subbasins_data (current_files climate_files : List DataFile) :
    Option (List MergedRow) :=
  let current_data := get_last_lines_from_subbasin_files_into_dataframe current_files
  match current_data.head? with
  | none => none
  | some c0 =>
    let climate_data :=
      get_lines_for_date_from_subbasin_files_into_dataframe climate_files c0.date
    some (merge_current_climate current_data climate_data)

/-- Identity stand-in for the EPSG:3857 → EPSG:32642 reprojection, used to
evaluate the locate operations on concrete inputs. -/
def exProj : Pt → Pt := fun p => p

/-- A concrete large basin row whose polygon contains every point. -/
def exRowBig : GeoRow :=
  { region := "SYR_DARYA", basin := "Syr Darya", code := "15013",
    gauges_RIVER := "Arys", area_km2 := 1000, label := "15013 - Arys",
    selected := false, containsPt := fun _ => true }

/-- A concrete small basin row (same region, smaller area) whose polygon
also contains every point. -/
def exRowSmall : GeoRow :=
  { region := "SYR_DARYA", basin := "Syr Darya", code := "15030",
    gauges_RIVER := "Keles", area_km2 := 10, label := "15030 - Keles",
    selected := false, containsPt := fun _ => true }

/-- A concrete basin row whose polygon contains no point. -/
def exRowOutside : GeoRow :=
  { region := "AMU_DARYA", basin := "Amu Darya", code := "17050",
    gauges_RIVER := "Vakhsh", area_km2 := 500, label := "17050 - Vakhsh",
    selected := false, containsPt := fun _ => false }

/-- A concrete raw geometry row whose `gauges_RIVER` attribute is the string
`'None'`. -/
def exRowNoneRiver : GeoRow :=
  { region := "CHU_TALAS", basin := "Chu", code := "15102",
    gauges_RIVER := "None", area_km2 := 42, label := "",
    selected := false, containsPt := fun _ => false }

/-- A concrete widget state of the dashboard with an empty picker value. -/
def exState : AppState :=
  { view_option := "Sub-basin", variable_option := "SWE",
    basin_selection_value := [], basin_selection_options := [],
    gdf := [exRowBig] }

/-- A concrete current-series input file of the aggregation job with two
data rows. -/
def c4CurrentFile : DataFile :=
  { path := "./data/16936_current.txt".toList,
    rows := [ { date := "2024-03-27", q5_swe := 0, q5_hs := 0, q50_swe := 80,
                q50_hs := 1, q95_swe := 0, q95_hs := 0 },
              { date := "2024-03-28", q5_swe := 0, q5_hs := 0, q50_swe := 90,
                q50_hs := 2, q95_swe := 0, q95_hs := 0 } ] }

/-- A concrete climate input file matching `c4CurrentFile`'s basin. -/
def c4ClimateFile : DataFile :=
  { path := "./data/16936_climate.txt".toList,
    rows := [ { date := "2024-03-28", q5_swe := 50, q5_hs := 1, q50_swe := 70,
                q50_hs := 3, q95_swe := 120, q95_hs := 5 } ] }

/-- The merged row the aggregation job produces from `c4CurrentFile` and
`c4ClimateFile`. -/
def c4Row : MergedRow :=
  { basin_id := "16936".toList, date := "2024-03-28", current_swe := 90,
    current_hs := 2, q5_swe := 50, q5_hs := 1, climate_swe := 70,
    climate_hs := 3, q95_swe := 120, q95_hs := 5,
    swe_threshold := "normal", hs_threshold := "normal" }

/-- A concrete current-series file whose current values lie strictly above
`Q95` and strictly below `Q5` of the degenerate climate band of
`c5ClimateFile`. -/
def c5CurrentFile : DataFile :=
  { path := "./data/15013_current.txt".toList,
    rows := [ { date := "2024-03-28", q5_swe := 0, q5_hs := 0, q50_swe := 7,
                q50_hs := 7, q95_swe := 0, q95_hs := 0 } ] }

/-- A concrete climate file with an inverted quantile band (`Q5 > Q95`) on
the matched date. -/
def c5ClimateFile : DataFile :=
  { path := "./data/15013_climate.txt".toList,
    rows := [ { date := "2024-03-28", q5_swe := 10, q5_hs := 10, q50_swe := 8,
                q50_hs := 8, q95_swe := 5, q95_hs := 5 } ] }

/-- The merged row the aggregation job produces from `c5CurrentFile` and
`c5ClimateFile`. -/
def c5Row : MergedRow :=
  { basin_id := "15013".toList, date := "2024-03-28", current_swe := 7,
    current_hs := 7, q5_swe := 10, q5_hs := 10, climate_swe := 8,
    climate_hs := 8, q95_swe := 5, q95_hs := 5,
    swe_threshold := "low", hs_threshold := "low" }

/-- The geometry row produced by `read_basin_geometry` from the raw row
`exRowNoneRiver`: the placeholder river name is substituted and the label
derived from it. -/
def c10Row : GeoRow :=
  { region := "CHU_TALAS", basin := "Chu", code := "15102",
    gauges_RIVER := "<river name unknown>", area_km2 := 42,
    label := "15102 - <river name unknown>", selected := true,
    containsPt := fun _ => false }

/-- If entry `j` of the boolean vector is `true` and every later entry is
`false`, then `j` is the last index `np.argwhere` reports. -/
theorem trueIndices_getLast_eq (bs : List Bool) (j : Nat) (hj : j < bs.length)
    (ht : bs.getD j false = true)
    (hlast : ∀ k, j < k → k < bs.length → bs.getD k false = false) :
    (trueIndices bs).getLast? = some j := by
  have hsplit : bs.length = (j + 1) + (bs.length - (j + 1)) := by omega
  simp only [List.getD_eq_getElem?_getD] at ht hlast
  unfold trueIndices
  rw [hsplit, List.range_add, List.filter_append, List.range_succ, List.filter_append]
  have h1 : List.filter (fun i => bs.getD i false) [j] = [j] := by
    simp [List.filter_cons, ht]
  have h2 : List.filter (fun i => bs.getD i false)
      (List.map (fun x => (j + 1) + x) (List.range (bs.length - (j + 1)))) = [] := by
    rw [List.filter_eq_nil_iff]
    intro a ha
    simp only [List.mem_map, List.mem_range] at ha
    obtain ⟨x, hx, rfl⟩ := ha
    simp [hlast ((j + 1) + x) (by omega) (by omega)]
  rw [h1, h2, List.append_nil]
  exact List.getLast?_concat _

/-- C1: for every click point and basin polygon set, when at least one
reprojected polygon contains the reprojected click point, the spatial
locate operation returns the identifier of the containing polygon with the
highest index in the area-descending sorted collection (the smallest-area /
last-rendered match): the basin `label` in `get_subbasin_code_from_tap`,
the `REGION` id in `get_region_from_tap`, and the basin `CODE` in
dashboard.py's `get_subbasin_code`.  In particular, for a click strictly
inside exactly one polygon the hypotheses hold for that polygon's index, so
its identifier is returned. -/
theorem tap_locate_returns_last_containing_polygon
    (reproject : Pt → Pt) (gdf : List GeoRow) (px py : ℚ) (j : Nat)
    (hj : j < gdf.length)
    (hcont : (gdf.get ⟨j, hj⟩).containsPt (reproject ⟨px, py⟩) = true)
    (hlast : ∀ (k : Nat) (hk : k < gdf.length), j < k →
      (gdf.get ⟨k, hk⟩).containsPt (reproject ⟨px, py⟩) = false) :
    get_subbasin_code_from_tap reproject gdf (some px) (some py)
        = Except.ok (some (gdf.get ⟨j, hj⟩).label)
    ∧ get_region_from_tap reproject gdf (some px) (some py)
        = Except.ok (some (gdf.get ⟨j, hj⟩).region)
    ∧ get_subbasin_code reproject gdf (some px) (some py)
        = some (gdf.get ⟨j, hj⟩).code := by
  have hlen : (gdf.map (fun r => r.containsPt (reproject ⟨px, py⟩))).length = gdf.length := by
    simp
  have hgetD : ∀ (k : Nat) (hk : k < gdf.length),
      (gdf.map (fun r => r.containsPt (reproject ⟨px, py⟩))).getD k false
        = (gdf.get ⟨k, hk⟩).containsPt (reproject ⟨px, py⟩) := by
    intro k hk
    simp [List.getD_eq_getElem?_getD, List.getElem?_map, List.getElem?_eq_getElem hk]
  have hLast : (trueIndices (gdf.map (fun r => r.containsPt (reproject ⟨px, py⟩)))).getLast?
      = some j := by
    refine trueIndices_getLast_eq _ j ?_ ?_ ?_
    · rw [hlen]; exact hj
    · rw [hgetD j hj]; exact hcont
    · intro k hjk hk
      rw [hlen] at hk
      rw [hgetD k hk]
      exact hlast k hk hjk
  refine ⟨?_, ?_, ?_⟩
  · simp only [get_subbasin_code_from_tap, hLast, List.getElem?_eq_getElem hj]
    rfl
  · simp only [get_region_from_tap, hLast, List.getElem?_eq_getElem hj]
    rfl
  · simp only [get_subbasin_code, get_subbasin_code_try, hLast, List.getElem?_eq_getElem hj]
    rfl

/-- Witness for C1: a click inside both of two overlapping polygons resolves
to the later-sorted (smaller-area) one. -/
theorem tap_locate_returns_last_containing_polygon_witness :
    get_subbasin_code_from_tap exProj [exRowBig, exRowSmall] (some 1) (some 2)
        = Except.ok (some "15030 - Keles")
    ∧ get_region_from_tap exProj [exRowBig, exRowSmall] (some 1) (some 2)
        = Except.ok (some "SYR_DARYA")
    ∧ get_subbasin_code exProj [exRowBig, exRowSmall] (some 1) (some 2)
        = some "15030" := by
  have h := tap_locate_returns_last_containing_polygon exProj [exRowBig, exRowSmall] 1 2 1
    (by decide)
    (by rfl)
    (by
      intro k hk hjk
      simp only [List.length_cons, List.length_nil] at hk
      omega)
  exact h

/-- C2 (code bug): a click contained in zero polygons does not yield "no
selection" in `get_subbasin_code_from_tap` (src/mcass-dashboard.py): the
function has no `try`/`except`, the guarded index is `None`, and
`gdf_projected.iloc[None]` raises a `TypeError` that escapes the locate
function.  Only dashboard.py's `get_subbasin_code`, whose body is wrapped
in `try`/`except`, catches the exception, surfaces a diagnostic on the
`output` pane and returns `None`. -/
theorem tap_zero_match_raises_uncaught :
    get_subbasin_code_from_tap exProj [exRowOutside] (some 0) (some 0)
        = Except.error "TypeError: cannot index by location index with a non-integer key"
    ∧ get_subbasin_code exProj [exRowOutside] (some 0) (some 0) = none := by
  exact ⟨rfl, rfl⟩

/-- C3 counterexample: in Regional view, selecting the region shared by two
sub-basin rows marks BOTH rows selected — more than one row of the geometry
collection carries `selected = true` after a selection-updating operation. -/
theorem update_regional_marks_multiple_rows :
    (update_gdf_with_selected_basin [exRowBig, exRowSmall] ["SYR_DARYA"] "Regional").countP
        (fun r => r.selected) = 2 := by
  rfl

/-- C3 (amended): after `update_gdf_with_selected_basin` with a non-empty
selection, a row is marked selected exactly when its selection key (the
`REGION` attribute in Regional view, the `label` otherwise) equals the
picker's value — so every highlighted polygon agrees with the picker.  In
Sub-basin view, when labels are pairwise distinct, at most one row is
selected; in Regional view every row of the picked region is selected
(possibly several, as the counterexample shows).  At initial load
(`read_basin_geometry`) at most one row is selected. -/
theorem selection_flags_follow_picker :
    (∀ (gdf : List GeoRow) (s0 : String) (rest : List String) (view_option : String),
      ∀ r ∈ update_gdf_with_selected_basin gdf (s0 :: rest) view_option,
        (r.selected = true ↔ (if view_option = "Regional" then r.region else r.label) = s0))
    ∧ (∀ (gdf : List GeoRow) (s0 : String) (rest : List String) (view_option : String),
        ¬ view_option = "Regional" → (gdf.map (fun r => r.label)).Nodup →
        (update_gdf_with_selected_basin gdf (s0 :: rest) view_option).countP
            (fun r => r.selected) ≤ 1)
    ∧ (∀ raws : List GeoRow,
        (read_basin_geometry raws).countP (fun r => r.selected) ≤ 1) := by
  refine ⟨?_, ?_, ?_⟩
  · intro gdf s0 rest view_option r hr
    simp only [update_gdf_with_selected_basin] at hr
    by_cases hv : view_option = "Regional"
    · simp only [if_pos hv, List.map_map, List.mem_map, Function.comp] at hr
      obtain ⟨r0, hr0, rfl⟩ := hr
      simp only [if_pos hv]
      by_cases hreg : r0.region = s0
      · simp [hreg]
      · simp [hreg]
    · simp only [if_neg hv, List.map_map, List.mem_map, Function.comp] at hr
      obtain ⟨r0, hr0, rfl⟩ := hr
      simp only [if_neg hv]
      by_cases hlab : r0.label = s0
      · simp [hlab]
      · simp [hlab]
  · intro gdf s0 rest view_option hv hnodup
    simp only [update_gdf_with_selected_basin, if_neg hv, List.map_map]
    rw [List.countP_map]
    have hcount : List.countP
        ((fun r => r.selected) ∘
          ((fun r => if r.label = s0 then { r with selected := true } else r) ∘
            (fun r => { r with selected := false }))) gdf
        = List.count s0 (gdf.map (fun r => r.label)) := by
      rw [List.count_eq_countP, List.countP_map]
      apply List.countP_congr
      intro r0 hr0
      by_cases hlab : r0.label = s0
      · simp [Function.comp, hlab]
      · simp [Function.comp, hlab]
    rw [hcount]
    exact List.nodup_iff_count_le_one.mp hnodup s0
  · intro raws
    unfold read_basin_geometry
    rw [(List.perm_insertionSort _ _).countP_eq, List.countP_map]
    cases raws with
    | nil => simp [init_selected]
    | cons r rs =>
      simp only [init_selected, List.countP_cons, List.countP_map]
      have hzero : List.countP
          (((fun r => r.selected) ∘ fun r =>
            { r with
              gauges_RIVER := if r.gauges_RIVER = "None" then "<river name unknown>" else r.gauges_RIVER,
              label := r.code ++ " - " ++
                (if r.gauges_RIVER = "None" then "<river name unknown>" else r.gauges_RIVER) }) ∘
            fun s => { s with selected := false }) rs = 0 := by
        rw [List.countP_eq_zero]
        intro a _
        simp [Function.comp]
      simp [hzero, Function.comp]

/-- Witness for C3 (amended): a concrete Sub-basin selection marks at most
one row, initial load marks at most one row, and the highlighted row's
label equals the picker's value. -/
theorem selection_flags_follow_picker_witness :
    ((update_gdf_with_selected_basin [exRowBig, exRowSmall] ["15030 - Keles"] "Sub-basin").countP
        (fun r => r.selected) ≤ 1)
    ∧ ((read_basin_geometry [exRowNoneRiver]).countP (fun r => r.selected) ≤ 1)
    ∧ (({ exRowSmall with selected := true } : GeoRow).selected = true ↔
        (if ("Sub-basin" : String) = "Regional"
          then ({ exRowSmall with selected := true } : GeoRow).region
          else ({ exRowSmall with selected := true } : GeoRow).label) = "15030 - Keles") := by
  obtain ⟨h1, h2, h3⟩ := selection_flags_follow_picker
  refine ⟨h2 [exRowBig, exRowSmall] "15030 - Keles" [] "Sub-basin" (by decide) (by decide),
          h3 [exRowNoneRiver],
          h1 [exRowBig, exRowSmall] "15030 - Keles" [] "Sub-basin" _ ?_⟩
  show _ ∈ [{ exRowBig with selected := false }, { exRowSmall with selected := true }]
  exact List.mem_cons_of_mem _ (List.mem_cons_self _ _)

/-- C4: every row of the aggregation job's merged output pairs the last row
of some current-series input file for that basin with a climate row of the
SAME date — the climate row joined to a basin is the climate-file row whose
date equals that basin's own current-series last-row date. -/
theorem aggregate_merges_on_own_latest_date
    (current_files climate_files : List DataFile) (out : List MergedRow)
    (hout : aggregate_subbasins_data current_files climate_files = some out)
    (m : MergedRow) (hm : m ∈ out) :
    (∃ f ∈ current_files, ∃ r : RawRow,
        f.rows.getLast? = some r
        ∧ get_basin_id_from_file_path f.path = m.basin_id
        ∧ r.date = m.date ∧ r.q50_swe = m.current_swe ∧ r.q50_hs = m.current_hs)
    ∧ (∃ g ∈ climate_files, ∃ k ∈ g.rows,
        get_basin_id_from_file_path g.path = m.basin_id
        ∧ k.date = m.date ∧ k.q5_swe = m.q5_swe ∧ k.q95_swe = m.q95_swe
        ∧ k.q50_swe = m.climate_swe ∧ k.q5_hs = m.q5_hs ∧ k.q95_hs = m.q95_hs
        ∧ k.q50_hs = m.climate_hs) := by
  simp only [aggregate_subbasins_data] at hout
  cases h0 : (get_last_lines_from_subbasin_files_into_dataframe current_files).head? with
  | none => rw [h0] at hout; exact absurd hout (by simp)
  | some c0 =>
    rw [h0] at hout
    simp only [Option.some_inj] at hout
    subst hout
    simp only [merge_current_climate, List.mem_flatMap, List.mem_map, List.mem_filter] at hm
    obtain ⟨c, hc, k, ⟨hkmem, hkcond⟩, hmk⟩ := hm
    simp only [Bool.and_eq_true, beq_iff_eq] at hkcond
    obtain ⟨hkb, hkd⟩ := hkcond
    simp only [get_last_lines_from_subbasin_files_into_dataframe, List.mem_flatMap] at hc
    obtain ⟨f, hf, hcf⟩ := hc
    simp only [read_last_data_from_file_to_dataframe] at hcf
    cases hgl : f.rows.getLast? with
    | none => rw [hgl] at hcf; exact absurd hcf (by simp)
    | some r =>
      rw [hgl] at hcf
      simp only [List.mem_singleton] at hcf
      simp only [get_lines_for_date_from_subbasin_files_into_dataframe,
        List.mem_flatMap] at hkmem
      obtain ⟨g, hg, hkg⟩ := hkmem
      simp only [read_data_for_date_from_file_to_dataframe, List.mem_map,
        List.mem_filter] at hkg
      obtain ⟨kr, ⟨hkr, hkrdate⟩, hkentry⟩ := hkg
      subst hmk
      subst hcf
      subst hkentry
      refine ⟨⟨f, hf, r, hgl, rfl, rfl, rfl, rfl⟩, ⟨g, hg, kr, hkr, ?_, ?_, rfl, rfl, rfl, rfl, rfl, rfl⟩⟩
      · simpa using hkb
      · simpa using hkd

/-- Witness for C4: the concrete two-row current file and one-row climate
file merge into `c4Row`, whose current part is the current file's last row
and whose climate part carries the same date. -/
theorem aggregate_merges_on_own_latest_date_witness :
    (∃ f ∈ [c4CurrentFile], ∃ r : RawRow,
        f.rows.getLast? = some r
        ∧ get_basin_id_from_file_path f.path = c4Row.basin_id
        ∧ r.date = c4Row.date ∧ r.q50_swe = c4Row.current_swe ∧ r.q50_hs = c4Row.current_hs)
    ∧ (∃ g ∈ [c4ClimateFile], ∃ k ∈ g.rows,
        get_basin_id_from_file_path g.path = c4Row.basin_id
        ∧ k.date = c4Row.date ∧ k.q5_swe = c4Row.q5_swe ∧ k.q95_swe = c4Row.q95_swe
        ∧ k.q50_swe = c4Row.climate_swe ∧ k.q5_hs = c4Row.q5_hs ∧ k.q95_hs = c4Row.q95_hs
        ∧ k.q50_hs = c4Row.climate_hs) :=
  aggregate_merges_on_own_latest_date [c4CurrentFile] [c4ClimateFile] [c4Row]
    (by decide) c4Row (List.mem_cons_self _ _)

/-- C5 counterexample: on a merged row whose climate band is inverted
(`Q5_SWE > Q95_SWE`), the current SWE lies strictly above `Q95_SWE` yet
`swe_threshold` is `'low'`, not `'high'`: the `'low'` assignment of line 77
overwrites the `'high'` of line 76. -/
theorem swe_high_claim_fails_on_inverted_band :
    aggregate_subbasins_data [c5CurrentFile] [c5ClimateFile] = some [c5Row]
    ∧ c5Row.current_swe > c5Row.q95_swe
    ∧ ¬ c5Row.swe_threshold = "high" := by
  refine ⟨by decide, by decide, by decide⟩

/-- C5 (amended): for every merged output row, `'low'` takes precedence:
`swe_threshold` is `'low'` if the current SWE is strictly below `Q5_SWE`,
otherwise `'high'` if it is strictly above `Q95_SWE`, otherwise `'normal'`
(and likewise for HS).  Whenever `Q5 ≤ Q95` — the normal shape of a
quantile band — this coincides with the claim's reading. -/
theorem aggregate_threshold_classification
    (current_files climate_files : List DataFile) (out : List MergedRow)
    (hout : aggregate_subbasins_data current_files climate_files = some out)
    (m : MergedRow) (hm : m ∈ out) :
    m.swe_threshold = (if m.current_swe < m.q5_swe then "low"
      else if m.current_swe > m.q95_swe then "high" else "normal")
    ∧ m.hs_threshold = (if m.current_hs < m.q5_hs then "low"
      else if m.current_hs > m.q95_hs then "high" else "normal") := by
  simp only [aggregate_subbasins_data] at hout
  cases h0 : (get_last_lines_from_subbasin_files_into_dataframe current_files).head? with
  | none => rw [h0] at hout; exact absurd hout (by simp)
  | some c0 =>
    rw [h0] at hout
    simp only [Option.some_inj] at hout
    subst hout
    simp only [merge_current_climate, List.mem_flatMap, List.mem_map, List.mem_filter] at hm
    obtain ⟨c, hc, k, hk, hmk⟩ := hm
    subst hmk
    exact ⟨rfl, rfl⟩

/-- Witness for C5 (amended): evaluation on the concrete inverted-band
merged row. -/
theorem aggregate_threshold_classification_witness :
    c5Row.swe_threshold = (if c5Row.current_swe < c5Row.q5_swe then "low"
      else if c5Row.current_swe > c5Row.q95_swe then "high" else "normal")
    ∧ c5Row.hs_threshold = (if c5Row.current_hs < c5Row.q5_hs then "low"
      else if c5Row.current_hs > c5Row.q95_hs then "high" else "normal") :=
  aggregate_threshold_classification [c5CurrentFile] [c5ClimateFile] [c5Row]
    (by decide) c5Row (List.mem_cons_self _ _)

/-- C6: for every row of a previous-year input file, the previous-year
loading operation keeps the row and shifts its date forward by exactly one
calendar year (`pd.DateOffset(years=1)`, clamping only Feb 29), changing
nothing else in the row: row counts match, every date is `addOneYear` of
the input date, and the payload of every row is untouched. -/
theorem read_previous_shifts_each_row_by_one_year {α : Type} (df : List (Date × α)) (i : Nat) :
    (read_previous_year_data_for_basin df).length = df.length
    ∧ ((read_previous_year_data_for_basin df)[i]?).map Prod.snd = (df[i]?).map Prod.snd
    ∧ ((read_previous_year_data_for_basin df)[i]?).map Prod.fst
        = (df[i]?).map (fun r => addOneYear r.fst) := by
  refine ⟨by simp [read_previous_year_data_for_basin], ?_, ?_⟩
  · simp only [read_previous_year_data_for_basin, List.getElem?_map]
    cases df[i]? with
    | none => rfl
    | some r => rfl
  · simp only [read_previous_year_data_for_basin, List.getElem?_map]
    cases df[i]? with
    | none => rfl
    | some r => rfl

/-- C7: the split of the current series by the forecast flag `FC` is a
disjoint and exhaustive partition: the two sub-series preserve every row's
multiplicity, jointly cover the input, and share no row. -/
theorem split_forecast_flag_is_partition (df : List CurrentRow) (r : CurrentRow) :
    ((split_current_by_forecast_flag df).1.count r
        + (split_current_by_forecast_flag df).2.count r = df.count r)
    ∧ (r ∈ df ↔ r ∈ (split_current_by_forecast_flag df).1
        ∨ r ∈ (split_current_by_forecast_flag df).2)
    ∧ ¬ (r ∈ (split_current_by_forecast_flag df).1
        ∧ r ∈ (split_current_by_forecast_flag df).2) := by
  simp only [split_current_by_forecast_flag]
  cases hfc : r.fc with
  | true =>
    refine ⟨?_, ?_, ?_⟩
    · rw [List.count_filter (by simp [hfc]), Nat.add_eq_left]
      rw [List.count_eq_countP, List.countP_filter, List.countP_eq_zero]
      intro a _
      simp only [Bool.and_eq_true, beq_iff_eq]
      rintro ⟨rfl, h2⟩
      simp [hfc] at h2
    · simp [List.mem_filter, hfc]
    · rintro ⟨h1, h2⟩
      rw [List.mem_filter] at h2
      simp [hfc] at h2
  | false =>
    refine ⟨?_, ?_, ?_⟩
    · have hz : List.count r (List.filter (fun s => s.fc == true) df) = 0 := by
        rw [List.count_eq_countP, List.countP_filter, List.countP_eq_zero]
        intro a _
        simp only [Bool.and_eq_true, beq_iff_eq]
        rintro ⟨rfl, h2⟩
        simp [hfc] at h2
      rw [hz, List.count_filter (by simp [hfc]), Nat.zero_add]
    · simp [List.mem_filter, hfc]
    · rintro ⟨h1, h2⟩
      rw [List.mem_filter] at h1
      simp [hfc] at h1

/-- C8: toggling the variable (SWE/HS/ROF) leaves the view mode, the
picker's value and option list, and a consistently-highlighted geometry
unchanged; it only changes what the chart composer renders — switching to
HS yields y-axis label "HS (m)" for the same basin code as SWE. -/
theorem variable_toggle_preserves_selection (s : AppState) (v : String) :
    (set_variable s v).view_option = s.view_option
    ∧ (set_variable s v).basin_selection_value = s.basin_selection_value
    ∧ (set_variable s v).basin_selection_options = s.basin_selection_options
    ∧ ((s.gdf = update_gdf_with_selected_basin s.gdf s.basin_selection_value s.view_option) →
        (set_variable s v).gdf = s.gdf)
    ∧ (∀ (b : String) (rest : List String) (river_name : String),
        (plot_subbasin_data "HS" (b :: rest) river_name).map ChartSpec.ylabel = some "HS (m)"
        ∧ (plot_subbasin_data "HS" (b :: rest) river_name).map ChartSpec.basin_code
            = (plot_subbasin_data "SWE" (b :: rest) river_name).map ChartSpec.basin_code) := by
  refine ⟨rfl, rfl, rfl, fun h => ?_, fun b rest river_name => ⟨rfl, rfl⟩⟩
  exact h.symm

/-- Witness for C8: the concrete state `exState` (empty picker value, hence
trivially consistent geometry) is untouched by toggling to HS, and the HS
chart for a concrete basin carries y-axis label "HS (m)". -/
theorem variable_toggle_preserves_selection_witness :
    (set_variable exState "HS").view_option = exState.view_option
    ∧ (set_variable exState "HS").gdf = exState.gdf
    ∧ (plot_subbasin_data "HS" ["15030 - Keles"] "Keles").map ChartSpec.ylabel
        = some "HS (m)" := by
  obtain ⟨h1, h2, h3, h4, h5⟩ := variable_toggle_preserves_selection exState "HS"
  exact ⟨h1, h4 rfl, (h5 "15030 - Keles" [] "Keles").1⟩

/-- `str.split(sep)` never returns an empty list. -/
theorem pySplit_ne_nil (sep : Char) : ∀ l : List Char, pySplit sep l ≠ []
  | [] => by simp [pySplit]
  | c :: cs => by
    simp only [pySplit]
    split <;> simp

/-- The first field of `str.split(sep)` is the prefix before the first
occurrence of `sep`. -/
theorem pySplit_headD_takeWhile (sep : Char) (l : List Char) :
    (pySplit sep l).headD [] = l.takeWhile (fun c => c != sep) := by
  induction l with
  | nil => rfl
  | cons c cs ih =>
    simp only [pySplit, List.takeWhile_cons]
    by_cases h : c = sep
    · simp [h]
    · simp only [List.headD_eq_head?_getD] at ih
      simp [h, ih]

/-- Splitting distributes over an explicit separator occurrence:
`(xs + sep + ys).split(sep) == xs.split(sep) + ys.split(sep)`. -/
theorem pySplit_append_sep (sep : Char) (xs ys : List Char) :
    pySplit sep (xs ++ sep :: ys) = pySplit sep xs ++ pySplit sep ys := by
  induction xs with
  | nil => simp [pySplit]
  | cons x xs ih =>
    by_cases h : x = sep
    · subst h
      simp [pySplit, ih]
    · simp only [List.cons_append, pySplit, if_neg h]
      cases hxs : pySplit sep xs with
      | nil => exact absurd hxs (pySplit_ne_nil sep xs)
      | cons a as => simp [hxs, ih]

/-- Splitting a string that does not contain the separator returns the
one-element list holding the whole string. -/
theorem pySplit_of_not_mem (sep : Char) : ∀ l : List Char, ¬ sep ∈ l → pySplit sep l = [l]
  | [], _ => rfl
  | c :: cs, h => by
    have hc : ¬ c = sep := by
      intro e
      exact h (by rw [← e]; exact List.mem_cons_self c cs)
    rw [pySplit, if_neg hc,
      pySplit_of_not_mem sep cs (fun hm => h (List.mem_cons_of_mem c hm))]
    simp

/-- C9: the aggregation job's basin-id extraction returns the part of the
final path component before its first underscore: for every path written
as a prefix, a final slash, and a slash-free final component, the result is
the component's longest underscore-free prefix; for a component of the form
`{id}_{kind}` with underscore-free `id` the result is exactly `id`; hence
`'./data/16936_current.txt'` yields `'16936'`, while the region id in
`'./data/AMU_DARYA_current.txt'` is truncated to `'AMU'`. -/
theorem get_basin_id_extracts_before_first_underscore :
    (∀ (pre comp : List Char), ¬ '/' ∈ comp →
        get_basin_id_from_file_path (pre ++ '/' :: comp)
          = comp.takeWhile (fun c => c != '_'))
    ∧ (∀ (pre bid kind : List Char), ¬ '/' ∈ bid → ¬ '_' ∈ bid → ¬ '/' ∈ kind →
        get_basin_id_from_file_path (pre ++ '/' :: (bid ++ '_' :: kind)) = bid)
    ∧ get_basin_id_from_file_path ("./data/16936_current.txt".toList) = "16936".toList
    ∧ get_basin_id_from_file_path ("./data/AMU_DARYA_current.txt".toList) = "AMU".toList := by
  have hlast : ∀ (pre comp : List Char), ¬ '/' ∈ comp →
      (pySplit '/' (pre ++ '/' :: comp)).getLastD [] = comp := by
    intro pre comp hcomp
    rw [pySplit_append_sep, pySplit_of_not_mem '/' comp hcomp]
    simp [List.getLastD_concat]
  refine ⟨?_, ?_, by decide, by decide⟩
  · intro pre comp hcomp
    unfold get_basin_id_from_file_path
    rw [hlast pre comp hcomp, pySplit_headD_takeWhile]
  · intro pre bid kind hb hu hk
    have hcomp : ¬ '/' ∈ (bid ++ '_' :: kind) := by
      intro hmem
      rcases List.mem_append.mp hmem with h1 | h2
      · exact hb h1
      · rcases List.mem_cons.mp h2 with h3 | h4
        · exact absurd h3 (by decide)
        · exact hk h4
    unfold get_basin_id_from_file_path
    rw [hlast pre (bid ++ '_' :: kind) hcomp, pySplit_append_sep,
      pySplit_of_not_mem '_' bid hu]
    simp

/-- Witness for C9: evaluation of the two universally quantified parts on a
concrete sub-basin file path. -/
theorem get_basin_id_extracts_before_first_underscore_witness :
    get_basin_id_from_file_path ("./data".toList ++ '/' :: "16936_current.txt".toList)
      = ("16936_current.txt".toList).takeWhile (fun c => c != '_')
    ∧ get_basin_id_from_file_path
        ("./data".toList ++ '/' :: ("16936".toList ++ '_' :: "current.txt".toList))
      = "16936".toList := by
  obtain ⟨h1, h2, h3, h4⟩ := get_basin_id_extracts_before_first_underscore
  exact ⟨h1 "./data".toList "16936_current.txt".toList (by decide),
         h2 "./data".toList "16936".toList "current.txt".toList
           (by decide) (by decide) (by decide)⟩

/-- Setting the `selected` flags at load time changes no other field: every
row of `init_selected raws` agrees with a row of `raws` on `code` and
`gauges_RIVER`. -/
theorem init_selected_preserves_fields (raws : List GeoRow) (r1 : GeoRow)
    (h : r1 ∈ init_selected raws) :
    ∃ r0 ∈ raws, r1.code = r0.code ∧ r1.gauges_RIVER = r0.gauges_RIVER := by
  cases raws with
  | nil => simp [init_selected] at h
  | cons r rs =>
    simp only [init_selected, List.mem_cons, List.mem_map] at h
    rcases h with h1 | ⟨t, ht, h2⟩
    · exact ⟨r, List.mem_cons_self r rs, by rw [h1], by rw [h1]⟩
    · exact ⟨t, List.mem_cons_of_mem r ht, by rw [← h2], by rw [← h2]⟩

/-- C10: after the geometry load, no row's `gauges_RIVER` is the literal
string `'None'`: a raw value `'None'` has been replaced by
`'<river name unknown>'` before the labels were derived, any other raw
value is kept, and every row's label is its code, the separator `' - '`,
and its (substituted) river name. -/
theorem labels_never_embed_missing_river_none
    (raws : List GeoRow) (r : GeoRow) (hr : r ∈ read_basin_geometry raws) :
    ¬ r.gauges_RIVER = "None"
    ∧ r.label = r.code ++ " - " ++ r.gauges_RIVER
    ∧ (∃ r0 ∈ raws, r.code = r0.code ∧
        ((r0.gauges_RIVER = "None" ∧ r.gauges_RIVER = "<river name unknown>")
          ∨ (¬ r0.gauges_RIVER = "None" ∧ r.gauges_RIVER = r0.gauges_RIVER))) := by
  unfold read_basin_geometry at hr
  rw [(List.perm_insertionSort _ _).mem_iff] at hr
  simp only [List.mem_map] at hr
  obtain ⟨r1, hr1, rfl⟩ := hr
  obtain ⟨r0, hr0, hcode, hriv⟩ := init_selected_preserves_fields raws r1 hr1
  by_cases hn : r1.gauges_RIVER = "None"
  · refine ⟨by simp [hn], by simp [hn], r0, hr0, by simpa using hcode, ?_⟩
    left
    exact ⟨by rw [← hriv]; exact hn, by simp [hn]⟩
  · refine ⟨by simp [hn], by simp [hn], r0, hr0, by simpa using hcode, ?_⟩
    right
    exact ⟨by rw [← hriv]; exact hn, by simp [hn]; exact hriv⟩

/-- Witness for C10: loading the raw row whose river attribute is `'None'`
produces exactly `c10Row`, whose label embeds the placeholder instead. -/
theorem labels_never_embed_missing_river_none_witness :
    ¬ c10Row.gauges_RIVER = "None"
    ∧ c10Row.label = c10Row.code ++ " - " ++ c10Row.gauges_RIVER
    ∧ (∃ r0 ∈ [exRowNoneRiver], c10Row.code = r0.code ∧
        ((r0.gauges_RIVER = "None" ∧ c10Row.gauges_RIVER = "<river name unknown>")
          ∨ (¬ r0.gauges_RIVER = "None" ∧ c10Row.gauges_RIVER = r0.gauges_RIVER))) := by
  refine labels_never_embed_missing_river_none [exRowNoneRiver] c10Row ?_
  show c10Row ∈ [c10Row]
  exact List.mem_cons_self _ _
